import Mathlib

/-!
Verification of the broker RPC client of `src/broker/index.ts` (KafkaSaur).

The definitions below are a shallow embedding of the `Broker` class: its
constructor, `isConnected`, `connect`, `disconnect`, `apiVersions`,
`joinGroup`, `fetch`, `listOffsets`, and the two private-symbol methods
`[PRIVATE.SHOULD_REAUTHENTICATE]` and `[PRIVATE.SEND_REQUEST]`.  Stateful
methods are embedded as pure functions from the broker state plus the
outcomes of the external collaborators (the framed `Connection`, the SASL
authenticator, the lock) to a result and a new state.  JavaScript
exceptions are embedded as `Except`, JS `null`/`undefined` as `Option`,
64-bit `Long` arithmetic as `Int` (the involved quantities - millisecond
durations and version numbers - never approach 2^63, so wrap-around is
unobservable), and JS objects with a fixed key set as structures.
-/

/-- A JavaScript error value as observed by the broker code: the
`name` used by `instanceof`-style checks (`e.name === '...'`), the
`type` tag used by protocol errors (`e.type !== 'UNSUPPORTED_VERSION'`),
the message, the `memberId` payload carried by `KafkaJSMemberIdRequired`,
and the `retriable` flag of the KafkaJS error hierarchy. -/
structure KError where
  name : String
  errType : String
  message : String
  memberId : String
  retriable : Bool
deriving DecidableEq, Repr

/-- A plain `new Error(msg)`: name "Error", no type tag, no payload. -/
def jsError (msg : String) : KError :=
  { name := "Error", errType := "", message := msg, memberId := "", retriable := false }

/-- Modelled from the spec: `KafkaJSNonRetriableError` (imported from
`../errors.ts`, which is absent from the sources) - a non-retriable
error carrying a message (spec section 7: "Exhausted ApiVersions
candidates -> non-retriable error"). -/
def kafkaJSNonRetriableError (msg : String) : KError :=
  { name := "KafkaJSNonRetriableError", errType := "", message := msg, memberId := "",
    retriable := false }

/-- The slice of the `Connection` collaborator the broker reads:
`{ host, port, connected, sasl, connectionTimeout }` (spec section 6,
Connection contract).  `sasl` is the presence of a SASL configuration. -/
structure ConnState where
  host : String
  port : Int
  connected : Bool
  sasl : Bool
  connectionTimeout : Int
deriving DecidableEq, Repr

/-- One row of an `ApiVersions` response (`response.apiVersions`). -/
structure ApiVersionEntry where
  apiKey : Int
  minVersion : Int
  maxVersion : Int
deriving DecidableEq, Repr

/-- The `lookupRequest` field: either the `notInitializedLookup` sentinel
installed by the constructor, or the function `lookup(versions)` built
from a negotiated versions table (represented by the raw entry list the
table was reduced from). -/
inductive LookupState where
  | sentinel : LookupState
  | fromVersions : List ApiVersionEntry → LookupState
deriving DecidableEq, Repr

/-- Whether a `LookupState` is the not-initialized sentinel. -/
def LookupState.isSentinel : LookupState → Bool
  | .sentinel => true
  | .fromVersions _ => false

/-- Invoking `lookupRequest`: the sentinel `notInitializedLookup` throws
`new Error('Broker not connected')` on every invocation regardless of its
arguments; an initialised lookup returns a factory (the selection logic of
`lookup` lives in `protocol/requests`, outside the broker, and is
irrelevant to the claims, so its success value is abstracted to unit). -/
def invokeLookup : LookupState → Int → Except KError Unit
  | .sentinel, _ => .error (jsError "Broker not connected")
  | .fromVersions _, _ => .ok ()

/-- The Broker state: the fields assigned by the constructor of
`Broker` (`src/broker/index.ts` lines 57-78).  `authenticatedAt` holds the
`process.hrtime()` pair `(seconds, nanoseconds)` or NIL; `sessionLifetime`
is a 64-bit `Long` in milliseconds. -/
structure BrokerState where
  conn : ConnState
  nodeId : Option Int
  versions : Option (List ApiVersionEntry)
  authenticationTimeout : Int
  reauthenticationThreshold : Int
  allowAutoTopicCreation : Bool
  supportAuthenticationProtocol : Option Bool
  authenticatedAt : Option (Nat × Nat)
  sessionLifetime : Int
  lockTimeout : Int
  brokerAddress : String
  lookupRequest : LookupState
deriving DecidableEq, Repr

/-- The `Broker` constructor: stores the options, sets
`authenticatedAt = null`, `sessionLifetime = Long.ZERO`, computes the lock
timeout `2 * connectionTimeout + authenticationTimeout` and the broker
address, and installs the `notInitializedLookup` sentinel. -/
def mkBroker (connection : ConnState) (nodeId : Option Int)
    (versions : Option (List ApiVersionEntry))
    (authenticationTimeout reauthenticationThreshold : Int)
    (allowAutoTopicCreation : Bool) (supportAuthenticationProtocol : Option Bool) :
    BrokerState :=
  { conn := connection
    nodeId := nodeId
    versions := versions
    authenticationTimeout := authenticationTimeout
    reauthenticationThreshold := reauthenticationThreshold
    allowAutoTopicCreation := allowAutoTopicCreation
    supportAuthenticationProtocol := supportAuthenticationProtocol
    authenticatedAt := none
    sessionLifetime := 0
    lockTimeout := 2 * connection.connectionTimeout + authenticationTimeout
    brokerAddress := connection.host ++ ":" ++ toString connection.port
    lookupRequest := .sentinel }

/-- The millisecond count the source computes from a `process.hrtime`
difference pair: `Long.fromValue(seconds).multiply(1000)
.add(Long.fromValue(nanos).divide(1000000))` (lines 816-819).  Both
components are nonnegative, so `Long`'s truncating division coincides
with `Int` division. -/
def millisSince (hr : Nat × Nat) : Int :=
  (hr.1 : Int) * 1000 + (hr.2 : Int) / 1000000

/-- Method `Broker[PRIVATE.SHOULD_REAUTHENTICATE]` (lines 808-822).  The
`hrSinceAuth` argument is the pair returned by
`process.hrtime(this.authenticatedAt)`, i.e. the monotonic-clock time
elapsed since authentication. -/
def BrokerState.shouldReauthenticate (st : BrokerState) (hrSinceAuth : Nat × Nat) : Bool :=
  if st.sessionLifetime = 0 then false
  else
    match st.authenticatedAt with
    | none => true
    | some _ =>
      let reauthenticateAt := millisSince hrSinceAuth + st.reauthenticationThreshold
      decide (reauthenticateAt ≥ st.sessionLifetime)

/-- Method `Broker.isConnected` (lines 83-88):
`sasl ? connected && (authenticatedAt != null && !shouldReauthenticate()) : connected`. -/
def BrokerState.isConnected (st : BrokerState) (hrSinceAuth : Nat × Nat) : Bool :=
  let isAuthenticated := st.authenticatedAt.isSome && !(st.shouldReauthenticate hrSinceAuth)
  if st.conn.sasl then st.conn.connected && isAuthenticated else st.conn.connected

/-- A concrete sasl-configured connection used by witness statements. -/
def saslConn : ConnState :=
  { host := "h", port := 1, connected := true, sasl := true, connectionTimeout := 1000 }

/-- A concrete sasl-free connection used by witness statements. -/
def plainConn : ConnState :=
  { host := "h", port := 1, connected := false, sasl := false, connectionTimeout := 1000 }

/-- A concrete authenticated broker state with no session expiry. -/
def authedBroker : BrokerState :=
  { mkBroker saslConn none none 1000 10000 true none with
    authenticatedAt := some (0, 0) }

/-- A concrete authenticated broker state with a 60000 ms session. -/
def expiringBroker : BrokerState :=
  { authedBroker with sessionLifetime := 60000 }

/-- C1: with sasl configured, `isConnected()` is true iff the connection is
connected, `authenticatedAt` is non-NIL and the re-authentication predicate
is false; without sasl it equals the connection's `connected` flag. -/
theorem claim_C1_isConnected (st : BrokerState) (hr : Nat × Nat) :
    (st.conn.sasl = true →
      (st.isConnected hr = true ↔
        st.conn.connected = true ∧ st.authenticatedAt ≠ none ∧
          st.shouldReauthenticate hr = false)) ∧
    (st.conn.sasl = false → st.isConnected hr = st.conn.connected) := by
  constructor
  · intro hsasl
    simp only [BrokerState.isConnected, hsasl, if_true]
    cases h : st.authenticatedAt <;>
      simp [h, Option.isSome, Bool.and_eq_true, Bool.not_eq_true']
  · intro hsasl
    simp [BrokerState.isConnected, hsasl]

/-- Witness for C1 at a concrete sasl-configured broker state. -/
theorem claim_C1_isConnected_witness :
    authedBroker.isConnected (0, 0) = true ↔
      authedBroker.conn.connected = true ∧ authedBroker.authenticatedAt ≠ none ∧
        authedBroker.shouldReauthenticate (0, 0) = false :=
  (claim_C1_isConnected authedBroker (0, 0)).1 rfl

/-- C2: `shouldReauthenticate` is false when `sessionLifetime` is zero;
otherwise true when `authenticatedAt` is NIL; otherwise true exactly when
the elapsed milliseconds plus `reauthenticationThreshold` reach
`sessionLifetime`. -/
theorem claim_C2_shouldReauthenticate (st : BrokerState) (hr : Nat × Nat) :
    (st.sessionLifetime = 0 → st.shouldReauthenticate hr = false) ∧
    (st.sessionLifetime ≠ 0 → st.authenticatedAt = none →
      st.shouldReauthenticate hr = true) ∧
    (∀ t, st.sessionLifetime ≠ 0 → st.authenticatedAt = some t →
      (st.shouldReauthenticate hr = true ↔
        millisSince hr + st.reauthenticationThreshold ≥ st.sessionLifetime)) := by
  refine ⟨fun h0 => ?_, fun hne hnil => ?_, fun t hne hsome => ?_⟩
  · simp [BrokerState.shouldReauthenticate, h0]
  · simp [BrokerState.shouldReauthenticate, hne, hnil]
  · simp [BrokerState.shouldReauthenticate, hne, hsome]

/-- Witness for C2: a session of 60000 ms with threshold 10000 ms requires
re-authentication once 55000 ms have elapsed. -/
theorem claim_C2_shouldReauthenticate_witness :
    expiringBroker.shouldReauthenticate (55, 0) = true ↔
      millisSince (55, 0) + expiringBroker.reauthenticationThreshold ≥
        expiringBroker.sessionLifetime :=
  (claim_C2_shouldReauthenticate expiringBroker (55, 0)).2.2 (0, 0) (by decide) rfl

/-- Method `Broker.disconnect` (lines 134-137): set `authenticatedAt = null`,
then `await this.connection.disconnect()`.  `discOutcome` is the outcome
of the connection's `disconnect`; on success the transport's `connected`
flag is lowered (Connection contract, spec section 6 - the connection
class is outside the broker source). -/
def BrokerState.disconnect (st : BrokerState) (discOutcome : Except KError Unit) :
    Except KError Unit × BrokerState :=
  let st1 := { st with authenticatedAt := none }
  match discOutcome with
  | .ok _ => (.ok (), { st1 with conn := { st1.conn with connected := false } })
  | .error e => (.error e, st1)

/-- Method `Broker[PRIVATE.SEND_REQUEST]` (lines 826-836): forward the request to
`connection.send`; if that fails with `e.name === 'KafkaJSConnectionClosedError'`,
`await this.disconnect()` and then re-throw `e` (a rejection of the inner
`disconnect` escapes the catch block first).  The returned boolean records
whether `disconnect()` was invoked. -/
def BrokerState.sendRequest (st : BrokerState) (sendOutcome : Except KError α)
    (discOutcome : Except KError Unit) : Except KError α × BrokerState × Bool :=
  match sendOutcome with
  | .ok r => (.ok r, st, false)
  | .error e =>
    if e.name = "KafkaJSConnectionClosedError" then
      match st.disconnect discOutcome with
      | (.ok _, st') => (.error e, st', true)
      | (.error d, st') => (.error d, st', true)
    else (.error e, st, false)

/-- C10: `disconnect()` clears `authenticatedAt` before delegating, so the
state after the call has `authenticatedAt = NIL` whether the connection's
`disconnect` succeeded or failed, the connection-disconnect outcome is the
call's result, and every other broker-owned field is unchanged. -/
theorem claim_C10_disconnect (st : BrokerState) (discOutcome : Except KError Unit) :
    (st.disconnect discOutcome).2.authenticatedAt = none ∧
    (st.disconnect discOutcome).1 = discOutcome ∧
    (st.disconnect discOutcome).2.versions = st.versions ∧
    (st.disconnect discOutcome).2.sessionLifetime = st.sessionLifetime ∧
    (st.disconnect discOutcome).2.supportAuthenticationProtocol =
      st.supportAuthenticationProtocol ∧
    (st.disconnect discOutcome).2.lookupRequest = st.lookupRequest ∧
    (st.disconnect discOutcome).2.nodeId = st.nodeId ∧
    (st.disconnect discOutcome).2.authenticationTimeout = st.authenticationTimeout ∧
    (st.disconnect discOutcome).2.reauthenticationThreshold =
      st.reauthenticationThreshold ∧
    (st.disconnect discOutcome).2.allowAutoTopicCreation = st.allowAutoTopicCreation := by
  cases discOutcome <;> simp [BrokerState.disconnect]

/-- An error with connection-closed semantics, as tested by
`e.name === 'KafkaJSConnectionClosedError'`. -/
def connClosedError : KError :=
  { name := "KafkaJSConnectionClosedError", errType := "", message := "Closed connection",
    memberId := "", retriable := true }

/-- A generic request-timeout error (neither connection-closed nor
version-related). -/
def timeoutError : KError :=
  { name := "KafkaJSRequestTimeoutError", errType := "REQUEST_TIMED_OUT",
    message := "Request timed out", memberId := "", retriable := true }

/-- Counterexample to C3: when the send fails with the connection-closed
error and the connection's own `disconnect` then fails, the send path
raises the disconnect failure, not the original send error (the rejected
`await this.disconnect()` escapes the catch block before `throw e`). -/
theorem claim_C3_counterexample :
    (authedBroker.sendRequest (α := Unit) (.error connClosedError)
        (.error timeoutError)).1 = .error timeoutError ∧
    timeoutError ≠ connClosedError ∧
    connClosedError.name = "KafkaJSConnectionClosedError" :=
  ⟨rfl, by decide, rfl⟩

/-- C3 as amended: a connection-closed send failure invokes `disconnect()`
(so `authenticatedAt` becomes NIL); the original error is re-raised when
the connection's `disconnect` succeeds, while a failing disconnect's own
error propagates instead; any other send failure propagates unchanged,
without invoking `disconnect()` and without touching the state. -/
theorem claim_C3_sendRequest (st : BrokerState) (sendOutcome : Except KError Unit)
    (discOutcome : Except KError Unit) :
    (∀ r, sendOutcome = .ok r →
      st.sendRequest sendOutcome discOutcome = (.ok r, st, false)) ∧
    (∀ e, sendOutcome = .error e → e.name = "KafkaJSConnectionClosedError" →
      (st.sendRequest sendOutcome discOutcome).2.2 = true ∧
      (st.sendRequest sendOutcome discOutcome).2.1.authenticatedAt = none ∧
      (discOutcome = .ok () →
        (st.sendRequest sendOutcome discOutcome).1 = .error e) ∧
      (∀ d, discOutcome = .error d →
        (st.sendRequest sendOutcome discOutcome).1 = .error d)) ∧
    (∀ e, sendOutcome = .error e → e.name ≠ "KafkaJSConnectionClosedError" →
      st.sendRequest sendOutcome discOutcome = (.error e, st, false)) := by
  refine ⟨fun r hr => ?_, fun e he hname => ?_, fun e he hname => ?_⟩
  · simp [hr, BrokerState.sendRequest]
  · subst he
    cases discOutcome <;>
      simp [BrokerState.sendRequest, BrokerState.disconnect, hname]
  · subst he
    simp [BrokerState.sendRequest, hname]

/-- Witness for the amended C3 at a concrete connection-closed failure with
a succeeding disconnect. -/
theorem claim_C3_sendRequest_witness :
    (authedBroker.sendRequest (α := Unit) (.error connClosedError) (.ok ())).2.2 = true ∧
    (authedBroker.sendRequest (α := Unit) (.error connClosedError)
        (.ok ())).2.1.authenticatedAt = none ∧
    ((.ok () : Except KError Unit) = .ok () →
      (authedBroker.sendRequest (α := Unit) (.error connClosedError) (.ok ())).1 =
        .error connClosedError) ∧
    (∀ d, (.ok () : Except KError Unit) = .error d →
      (authedBroker.sendRequest (α := Unit) (.error connClosedError) (.ok ())).1 =
        .error d) :=
  (claim_C3_sendRequest authedBroker (.error connClosedError) (.ok ())).2.1
    connClosedError rfl rfl

/-- UTF-16 code-unit comparison of two character sequences, as performed
by the default comparator of JavaScript `Array.prototype.sort` on the
stringified elements.  The characters at hand are decimal digits, for
which code units, code points and `Char.toNat` agree. -/
def charSeqLt : List Char → List Char → Bool
  | _, [] => false
  | [], _ :: _ => true
  | a :: as, b :: bs =>
    if a.toNat < b.toNat then true
    else if b.toNat < a.toNat then false
    else charSeqLt as bs

/-- JavaScript default sort comparison of two numbers: compare their
decimal string forms code unit by code unit. -/
def jsNumStringLt (a b : Nat) : Bool :=
  charSeqLt (Nat.toDigits 10 a) (Nat.toDigits 10 b)

/-- The total preorder realised by JavaScript `Array.prototype.sort`
without a comparator: `a` may precede `b` when `String(b) < String(a)`
fails. -/
def jsSortLe (a b : Nat) : Prop := jsNumStringLt b a = false

instance : DecidableRel jsSortLe := fun _ _ => inferInstanceAs (Decidable (_ = false))

/-- The candidate order built by `apiVersions()` (lines 144-147):
`requests.ApiVersions.versions.map(Number).sort().reverse()` - a default
(string-comparing) JavaScript sort, then reverse. -/
def availableApiVersions (versions : List Nat) : List Nat :=
  (List.insertionSort jsSortLe versions).reverse

/-- Modelled from the spec: `requests.ApiVersions.versions`, the version
list of the ApiVersions request family, lives in `protocol/requests`,
which is absent from the sources.  Spec section 8 scenario S3 fixes the
client candidate list as `{3,2,1,0}`, i.e. versions 0 through 3. -/
def apiVersionsProtocolVersions : List Nat := [0, 1, 2, 3]

/-- One `ApiVersions` probe as dispatched by the negotiation loop: the
request built at `candidateVersion` is sent with
`requestTimeout: this.connection.connectionTimeout` overriding whatever
the factory produced (lines 151-156). -/
structure ApiVersionsProbe where
  version : Nat
  requestTimeout : Int
deriving DecidableEq, Repr

/-- The `for (const candidateVersion of availableVersions)` loop of
`apiVersions()` (lines 149-167): try each candidate in turn; a response
breaks the loop; an `UNSUPPORTED_VERSION` failure moves to the next
candidate; any other failure is re-thrown; an exhausted loop leaves
`response` unset and `apiVersions()` throws the non-retriable
"API Versions not supported".  `server` gives the outcome of sending the
probe at each version; the second component lists the versions actually
attempted, in order. -/
def apiVersionsLoop (server : Nat → Except KError (List ApiVersionEntry)) :
    List Nat → Except KError (List ApiVersionEntry) × List Nat
  | [] => (.error (kafkaJSNonRetriableError "API Versions not supported"), [])
  | v :: rest =>
    match server v with
    | .ok r => (.ok r, [v])
    | .error e =>
      if e.errType = "UNSUPPORTED_VERSION" then
        let next := apiVersionsLoop server rest
        (next.1, v :: next.2)
      else (.error e, [v])

/-- The final `reduce` of `apiVersions()` (lines 168-173): fold the
response rows into a JS object keyed by `apiKey`; `Object.assign` lets a
later row overwrite an earlier one with the same key.  The object is
represented by its lookup function. -/
def reduceApiVersions (entries : List ApiVersionEntry) : Int → Option (Int × Int) :=
  entries.foldl
    (fun acc v => fun k =>
      if k = v.apiKey then some (v.minVersion, v.maxVersion) else acc k)
    (fun _ => none)

/-- Method `Broker.apiVersions` over an arbitrary candidate list: run the loop,
then reduce the response table. -/
def apiVersionsResult (server : Nat → Except KError (List ApiVersionEntry))
    (candidates : List Nat) : Except KError (Int → Option (Int × Int)) :=
  ((apiVersionsLoop server candidates).1).map reduceApiVersions

/-- The probes `apiVersions()` actually dispatches: the attempted
candidates, each carrying `requestTimeout = connectionTimeout`. -/
def apiVersionsProbes (server : Nat → Except KError (List ApiVersionEntry))
    (connectionTimeout : Int) : List ApiVersionsProbe :=
  ((apiVersionsLoop server (availableApiVersions apiVersionsProtocolVersions)).2).map
    (fun v => { version := v, requestTimeout := connectionTimeout })

/-- The attempted candidates are a sublist of the candidate list. -/
theorem apiVersionsLoop_attempts_sublist
    (server : Nat → Except KError (List ApiVersionEntry)) :
    ∀ candidates : List Nat,
      ((apiVersionsLoop server candidates).2).Sublist candidates := by
  intro candidates
  induction candidates with
  | nil => simp [apiVersionsLoop]
  | cons v rest ih =>
    simp only [apiVersionsLoop]
    cases server v with
    | ok r => exact List.Sublist.cons₂ v (List.nil_sublist rest)
    | error e =>
      by_cases h : e.errType = "UNSUPPORTED_VERSION"
      · simp only [h, if_true]
        exact List.Sublist.cons₂ v ih
      · simp only [h, if_false]
        exact List.Sublist.cons₂ v (List.nil_sublist rest)

/-- C4: the negotiation candidates are `{3,2,1,0}` probed highest first;
every actually attempted pair keeps the higher version strictly before
the lower one, and every probe carries
`requestTimeout = connectionTimeout`. -/
theorem claim_C4_apiVersions_order
    (server : Nat → Except KError (List ApiVersionEntry)) (connectionTimeout : Int) :
    availableApiVersions apiVersionsProtocolVersions = [3, 2, 1, 0] ∧
    List.Pairwise (· > ·) ((apiVersionsProbes server connectionTimeout).map (·.version)) ∧
    ∀ p ∈ apiVersionsProbes server connectionTimeout,
      p.requestTimeout = connectionTimeout := by
  refine ⟨by decide, ?_, ?_⟩
  · have hsub := apiVersionsLoop_attempts_sublist server
      (availableApiVersions apiVersionsProtocolVersions)
    have horder : List.Pairwise (· > ·) (availableApiVersions apiVersionsProtocolVersions) := by
      decide
    have hpair : List.Pairwise (α := Nat) (· > ·)
        ((apiVersionsLoop server (availableApiVersions apiVersionsProtocolVersions)).2) :=
      List.Pairwise.sublist hsub horder
    have hmap : (apiVersionsProbes server connectionTimeout).map (·.version) =
        (apiVersionsLoop server (availableApiVersions apiVersionsProtocolVersions)).2 := by
      rw [apiVersionsProbes, List.map_map]
      exact List.map_id _
    rw [hmap]
    exact hpair
  · intro p hp
    simp only [apiVersionsProbes, List.mem_map] at hp
    obtain ⟨v, _, rfl⟩ := hp
    rfl

/-- Folding response rows into the versions object, starting from an
arbitrary object `f`: the result at key `k` is the last row keyed `k`,
falling back to `f k`. -/
theorem reduceApiVersions_go (l : List ApiVersionEntry)
    (f : Int → Option (Int × Int)) (k : Int) :
    (l.foldl
      (fun acc v => fun j =>
        if j = v.apiKey then some (v.minVersion, v.maxVersion) else acc j)
      f) k =
      match l.reverse.find? (fun a => a.apiKey = k) with
      | some a => some (a.minVersion, a.maxVersion)
      | none => f k := by
  induction l generalizing f with
  | nil => simp
  | cons a l ih =>
    rw [List.foldl_cons, ih]
    rw [List.reverse_cons, List.find?_append]
    cases hfind : l.reverse.find? (fun a => a.apiKey = k) with
    | some b => simp [hfind, Option.or]
    | none =>
      by_cases h : a.apiKey = k
      · simp [hfind, Option.or, List.find?, h]
      · have h' : ¬ k = a.apiKey := fun hk => h hk.symm
        simp [hfind, Option.or, List.find?, h, h']

/-- The reduced versions object maps each api key to the min/max pair of
the last response row carrying that key. -/
theorem reduceApiVersions_lookup (entries : List ApiVersionEntry) (k : Int) :
    reduceApiVersions entries k =
      (entries.reverse.find? (fun a => a.apiKey = k)).map
        (fun a => (a.minVersion, a.maxVersion)) := by
  rw [reduceApiVersions, reduceApiVersions_go]
  cases hfind : entries.reverse.find? (fun a => a.apiKey = k) <;> simp [hfind]

/-- A protocol error of kind `UNSUPPORTED_VERSION`, as produced when the
server rejects the probed ApiVersions version. -/
def unsupportedVersionError : KError :=
  { name := "KafkaJSProtocolError", errType := "UNSUPPORTED_VERSION",
    message := "The version of API is not supported", memberId := "", retriable := true }

/-- The mock server of spec scenario S3: version 2 is accepted, anything
else is rejected as unsupported. -/
def mockServerS3 : Nat → Except KError (List ApiVersionEntry) := fun v =>
  if v = 2 then
    .ok [{ apiKey := 18, minVersion := 0, maxVersion := 2 }]
  else .error unsupportedVersionError

/-- A server whose every send fails with a non-version error. -/
def mockFatalServer : Nat → Except KError (List ApiVersionEntry) := fun _ =>
  .error timeoutError

/-- Witness for C4: under the S3 server with connection timeout 500, a
dispatched probe carries requestTimeout 500. -/
theorem claim_C4_apiVersions_order_witness :
    ({ version := 3, requestTimeout := 500 } : ApiVersionsProbe).requestTimeout = 500 :=
  (claim_C4_apiVersions_order mockServerS3 500).2.2
    { version := 3, requestTimeout := 500 } (by decide)

/-- An exhausted candidate walk - every candidate answered with an
`UNSUPPORTED_VERSION` failure - leaves the loop with the non-retriable
"API Versions not supported" error. -/
theorem apiVersionsLoop_exhausted (server : Nat → Except KError (List ApiVersionEntry)) :
    ∀ candidates : List Nat,
      (∀ u ∈ candidates, ∃ e, server u = .error e ∧ e.errType = "UNSUPPORTED_VERSION") →
      (apiVersionsLoop server candidates).1 =
        .error (kafkaJSNonRetriableError "API Versions not supported") := by
  intro candidates
  induction candidates with
  | nil => intro _; rfl
  | cons u us ih =>
    intro hall
    obtain ⟨e, he, hty⟩ := hall u (List.mem_cons_self u us)
    have hrest := ih (fun w hw => hall w (List.mem_cons_of_mem u hw))
    simp [apiVersionsLoop, he, hty, hrest]

/-- C5: an `UNSUPPORTED_VERSION` failure skips to the next candidate; any
other failure is re-raised; exhausting every candidate on
`UNSUPPORTED_VERSION` failures raises the non-retriable (retriable = false)
error "API Versions not supported"; a response ends negotiation with the
table reduced to the apiKey-indexed min/max mapping (the last row for a
key wins, per `Object.assign`). -/
theorem claim_C5_apiVersions_errors
    (server : Nat → Except KError (List ApiVersionEntry))
    (v : Nat) (rest candidates : List Nat) :
    (∀ e, server v = .error e → e.errType = "UNSUPPORTED_VERSION" →
      apiVersionsResult server (v :: rest) = apiVersionsResult server rest) ∧
    (∀ e, server v = .error e → e.errType ≠ "UNSUPPORTED_VERSION" →
      apiVersionsResult server (v :: rest) = .error e) ∧
    ((∀ u ∈ candidates, ∃ e, server u = .error e ∧ e.errType = "UNSUPPORTED_VERSION") →
      apiVersionsResult server candidates =
        .error (kafkaJSNonRetriableError "API Versions not supported")) ∧
    ((kafkaJSNonRetriableError "API Versions not supported").retriable = false ∧
      (kafkaJSNonRetriableError "API Versions not supported").message =
        "API Versions not supported") ∧
    (∀ r k, server v = .ok r →
      apiVersionsResult server (v :: rest) = .ok (reduceApiVersions r) ∧
        reduceApiVersions r k =
          (r.reverse.find? (fun a => a.apiKey = k)).map
            (fun a => (a.minVersion, a.maxVersion))) := by
  refine ⟨fun e he hty => ?_, fun e he hty => ?_, fun hall => ?_, ⟨rfl, rfl⟩,
    fun r k hr => ⟨?_, reduceApiVersions_lookup r k⟩⟩
  · simp [apiVersionsResult, apiVersionsLoop, he, hty]
  · simp [apiVersionsResult, apiVersionsLoop, he, hty, Except.map]
  · simp [apiVersionsResult, apiVersionsLoop_exhausted server candidates hall, Except.map]
  · simp [apiVersionsResult, apiVersionsLoop, hr, Except.map]

/-- Witness for C5: under the S3 server the unsupported version 3 is
skipped, a fatal server re-raises its error, an all-unsupported candidate
list produces "API Versions not supported", and the accepted version 2
response is reduced to its mapping. -/
theorem claim_C5_apiVersions_errors_witness :
    (apiVersionsResult mockServerS3 [3, 2, 1, 0] = apiVersionsResult mockServerS3 [2, 1, 0]) ∧
    (apiVersionsResult mockFatalServer [3, 2] = .error timeoutError) ∧
    (apiVersionsResult mockServerS3 [3, 1, 0] =
      .error (kafkaJSNonRetriableError "API Versions not supported")) ∧
    (apiVersionsResult mockServerS3 [2] =
      .ok (reduceApiVersions [{ apiKey := 18, minVersion := 0, maxVersion := 2 }])) := by
  refine ⟨(claim_C5_apiVersions_errors mockServerS3 3 [2, 1, 0] []).1
      unsupportedVersionError rfl rfl,
    (claim_C5_apiVersions_errors mockFatalServer 3 [2] []).2.1
      timeoutError rfl (by decide),
    (claim_C5_apiVersions_errors mockServerS3 0 [] [3, 1, 0]).2.2.1 ?_,
    ((claim_C5_apiVersions_errors mockServerS3 2 [] []).2.2.2.2
      [{ apiKey := 18, minVersion := 0, maxVersion := 2 }] 18 rfl).1⟩
  intro u hu
  fin_cases hu <;> exact ⟨unsupportedVersionError, rfl, rfl⟩

/-- The payload `joinGroup` hands to the JoinGroup request factory
(lines 353-360). -/
structure JoinGroupRequest where
  groupId : String
  sessionTimeout : Int
  rebalanceTimeout : Int
  memberId : String
  protocolType : String
  groupProtocols : List (String × String)
deriving DecidableEq, Repr

/-- The request record `makeRequest(assignedMemberId)` dispatches: all the
caller's fields, with `memberId` replaced by `assignedMemberId`. -/
def joinGroupRequest (groupId : String) (sessionTimeout rebalanceTimeout : Int)
    (assignedMemberId protocolType : String)
    (groupProtocols : List (String × String)) : JoinGroupRequest :=
  { groupId := groupId
    sessionTimeout := sessionTimeout
    rebalanceTimeout := rebalanceTimeout
    memberId := assignedMemberId
    protocolType := protocolType
    groupProtocols := groupProtocols }

/-- Method `Broker.joinGroup` (lines 350-370): send the request built from the
arguments (`memberId` defaults to "" and `protocolType` to "consumer" at
the call boundary); if it fails with `error.name === 'KafkaJSMemberIdRequired'`,
retry exactly once with `error.memberId` substituted; any other error is
re-thrown, and whatever the retry produces is returned as-is.  `server`
gives the outcome of each dispatched request; the second component lists
the requests actually sent, in order. -/
def joinGroup (server : JoinGroupRequest → Except KError α)
    (groupId : String) (sessionTimeout rebalanceTimeout : Int)
    (memberId protocolType : String) (groupProtocols : List (String × String)) :
    Except KError α × List JoinGroupRequest :=
  let request :=
    joinGroupRequest groupId sessionTimeout rebalanceTimeout memberId protocolType
      groupProtocols
  match server request with
  | .ok r => (.ok r, [request])
  | .error e =>
    if e.name = "KafkaJSMemberIdRequired" then
      let retry :=
        joinGroupRequest groupId sessionTimeout rebalanceTimeout e.memberId protocolType
          groupProtocols
      (server retry, [request, retry])
    else (.error e, [request])

/-- The retried request differs from the first one only in `memberId`. -/
theorem joinGroupRequest_retry_fields (groupId : String)
    (sessionTimeout rebalanceTimeout : Int) (memberId newMemberId protocolType : String)
    (groupProtocols : List (String × String)) :
    joinGroupRequest groupId sessionTimeout rebalanceTimeout newMemberId protocolType
        groupProtocols =
      { joinGroupRequest groupId sessionTimeout rebalanceTimeout memberId protocolType
          groupProtocols with memberId := newMemberId } := rfl

/-- C7: `joinGroup` sends at most two requests; a first-request success is
returned after exactly one send; a `KafkaJSMemberIdRequired` failure
triggers exactly one retry differing from the first request only in the
`memberId`, which is the one carried by the error, and the retry's outcome
(success or failure) is returned; any other first-request failure
propagates after a single send. -/
theorem claim_C7_joinGroup (server : JoinGroupRequest → Except KError Unit)
    (groupId : String) (sessionTimeout rebalanceTimeout : Int)
    (memberId protocolType : String) (groupProtocols : List (String × String)) :
    (joinGroup server groupId sessionTimeout rebalanceTimeout memberId protocolType
        groupProtocols).2.length ≤ 2 ∧
    (∀ r, server (joinGroupRequest groupId sessionTimeout rebalanceTimeout memberId
        protocolType groupProtocols) = .ok r →
      joinGroup server groupId sessionTimeout rebalanceTimeout memberId protocolType
          groupProtocols =
        (.ok r, [joinGroupRequest groupId sessionTimeout rebalanceTimeout memberId
          protocolType groupProtocols])) ∧
    (∀ e, server (joinGroupRequest groupId sessionTimeout rebalanceTimeout memberId
        protocolType groupProtocols) = .error e →
      e.name = "KafkaJSMemberIdRequired" →
      joinGroup server groupId sessionTimeout rebalanceTimeout memberId protocolType
          groupProtocols =
        (server { joinGroupRequest groupId sessionTimeout rebalanceTimeout memberId
            protocolType groupProtocols with memberId := e.memberId },
          [joinGroupRequest groupId sessionTimeout rebalanceTimeout memberId
            protocolType groupProtocols,
           { joinGroupRequest groupId sessionTimeout rebalanceTimeout memberId
            protocolType groupProtocols with memberId := e.memberId }])) ∧
    (∀ e, server (joinGroupRequest groupId sessionTimeout rebalanceTimeout memberId
        protocolType groupProtocols) = .error e →
      e.name ≠ "KafkaJSMemberIdRequired" →
      joinGroup server groupId sessionTimeout rebalanceTimeout memberId protocolType
          groupProtocols =
        (.error e, [joinGroupRequest groupId sessionTimeout rebalanceTimeout memberId
          protocolType groupProtocols])) := by
  refine ⟨?_, fun r hr => ?_, fun e he hname => ?_, fun e he hname => ?_⟩
  · rw [joinGroup]
    cases hs : server (joinGroupRequest groupId sessionTimeout rebalanceTimeout memberId
        protocolType groupProtocols) with
    | ok r => simp
    | error e =>
      by_cases hname : e.name = "KafkaJSMemberIdRequired" <;> simp [hname]
  · simp [joinGroup, hr]
  · simp only [joinGroup, he]
    simp [hname, joinGroupRequest]
  · simp [joinGroup, he, hname]

/-- The typed MemberIdRequired error, carrying the server-assigned member
id "m-7" (spec scenario S4). -/
def memberIdRequiredError : KError :=
  { name := "KafkaJSMemberIdRequired", errType := "MEMBER_ID_REQUIRED",
    message := "The group member needs to have a valid member id",
    memberId := "m-7", retriable := true }

/-- The mock server of spec scenario S4: an empty member id draws
`MEMBER_ID_REQUIRED` carrying "m-7"; any other member id succeeds. -/
def mockJoinServer : JoinGroupRequest → Except KError Unit := fun req =>
  if req.memberId = "" then .error memberIdRequiredError else .ok ()

/-- Witness for C7 at scenario S4: the empty-member-id request is retried
exactly once with memberId "m-7" and the retry's outcome is returned. -/
theorem claim_C7_joinGroup_witness :
    joinGroup mockJoinServer "g" 30000 60000 "" "consumer" [] =
      (mockJoinServer { joinGroupRequest "g" 30000 60000 "" "consumer" [] with
          memberId := "m-7" },
        [joinGroupRequest "g" 30000 60000 "" "consumer" [],
         { joinGroupRequest "g" 30000 60000 "" "consumer" [] with memberId := "m-7" }]) :=
  (claim_C7_joinGroup mockJoinServer "g" 30000 60000 "" "consumer" []).2.2.1
    memberIdRequiredError rfl rfl

/-- The first `reduce` of `Broker.fetch` (lines 281-286): flatten the
caller's `{topic, partitions[]}` list into `(topic, partition)` pairs by
pushing one pair per partition. -/
def flattenTopicPartitions (topics : List (String × List Int)) : List (String × Int) :=
  topics.foldl (fun acc tp => acc ++ tp.2.map (fun p => (tp.1, p))) []

/-- One step of the second `reduce` of `Broker.fetch` (lines 289-298):
append the pair to the last entry when it shares its topic, else push a
fresh single-partition entry. -/
def consolidateStep (acc : List (String × List Int)) (tp : String × Int) :
    List (String × List Int) :=
  match acc.getLast? with
  | some last =>
    if last.1 = tp.1 then acc.dropLast ++ [(last.1, last.2 ++ [tp.2])]
    else acc ++ [(tp.1, [tp.2])]
  | none => acc ++ [(tp.1, [tp.2])]

/-- The second `reduce` of `Broker.fetch`: re-group the shuffled pairs,
collapsing consecutive pairs that share a topic into one entry. -/
def consolidateTopicPartitions (pairs : List (String × Int)) : List (String × List Int) :=
  pairs.foldl consolidateStep []

/-- Flattening distributes over `++` at the accumulator: the fold from
`acc` is `acc`'s flattening followed by the fold from `[]`. -/
theorem flattenTopicPartitions_go (topics : List (String × List Int))
    (acc : List (String × Int)) :
    topics.foldl (fun acc tp => acc ++ tp.2.map (fun p => (tp.1, p))) acc =
      acc ++ flattenTopicPartitions topics := by
  rw [flattenTopicPartitions]
  induction topics generalizing acc with
  | nil => simp
  | cons tp rest ih =>
    rw [List.foldl_cons, List.foldl_cons, List.nil_append, ih,
      ih (tp.2.map fun p => (tp.1, p))]
    simp

/-- A list with a known last element splits as its `dropLast` plus that
element. -/
theorem eq_dropLast_append_of_getLast? (l : List (String × List Int))
    (a : String × List Int) (h : l.getLast? = some a) :
    l = l.dropLast ++ [a] := by
  have hne : l ≠ [] := by
    intro hnil
    rw [hnil] at h
    simp at h
  have hlast : l.getLast hne = a := by
    have := List.getLast?_eq_getLast l hne
    rw [this] at h
    exact (Option.some_inj.mp h)
  rw [← hlast]
  exact (List.dropLast_append_getLast hne).symm

/-- One consolidation step appends exactly the consumed pair to the
flattening of the accumulator. -/
theorem flatten_consolidateStep (acc : List (String × List Int)) (tp : String × Int) :
    flattenTopicPartitions (consolidateStep acc tp) =
      flattenTopicPartitions acc ++ [tp] := by
  rw [consolidateStep]
  cases hlast : acc.getLast? with
  | none =>
    have hnil : acc = [] := by
      cases acc with
      | nil => rfl
      | cons x xs => simp [List.getLast?_eq_getLast] at hlast
    subst hnil
    simp [flattenTopicPartitions]
  | some last =>
    have hsplit := eq_dropLast_append_of_getLast? acc last hlast
    by_cases htop : last.1 = tp.1
    · simp only [htop, if_true]
      conv_rhs => rw [hsplit]
      rw [flattenTopicPartitions, flattenTopicPartitions, List.foldl_append,
        List.foldl_append, flattenTopicPartitions_go, flattenTopicPartitions_go]
      simp [flattenTopicPartitions, htop]
    · simp only [htop, if_false]
      rw [flattenTopicPartitions, flattenTopicPartitions, List.foldl_append,
        flattenTopicPartitions_go, flattenTopicPartitions_go]
      simp [flattenTopicPartitions]

/-- Flattening a consolidation recovers the input pair list exactly. -/
theorem flatten_consolidate_go (pairs : List (String × Int))
    (acc : List (String × List Int)) :
    flattenTopicPartitions (pairs.foldl consolidateStep acc) =
      flattenTopicPartitions acc ++ pairs := by
  induction pairs generalizing acc with
  | nil => simp
  | cons tp rest ih =>
    rw [List.foldl_cons, ih, flatten_consolidateStep]
    simp

/-- Flattening after consolidation is the identity on pair lists. -/
theorem flatten_consolidate (pairs : List (String × Int)) :
    flattenTopicPartitions (consolidateTopicPartitions pairs) = pairs := by
  rw [consolidateTopicPartitions, flatten_consolidate_go]
  rfl

/-- One consolidation step keeps adjacent output entries on distinct
topics. -/
theorem consolidateStep_chain (acc : List (String × List Int)) (tp : String × Int)
    (h : List.Chain' (fun a b => a.1 ≠ b.1) acc) :
    List.Chain' (fun a b => a.1 ≠ b.1) (consolidateStep acc tp) := by
  rw [consolidateStep]
  cases hlast : acc.getLast? with
  | none =>
    have hnil : acc = [] := by
      cases acc with
      | nil => rfl
      | cons x xs => simp [List.getLast?_eq_getLast] at hlast
    subst hnil
    simp
  | some last =>
    have hsplit := eq_dropLast_append_of_getLast? acc last hlast
    by_cases htop : last.1 = tp.1
    · simp only [htop, if_true]
      rw [hsplit] at h
      rw [List.chain'_append] at h ⊢
      refine ⟨h.1, List.chain'_singleton _, fun x hx y hy => ?_⟩
      have hxl := h.2.2 x hx last (by simp)
      simp only [List.head?_cons, Option.mem_def, Option.some_inj] at hy
      subst hy
      rw [htop] at hxl
      simpa using hxl
    · simp only [htop, if_false]
      rw [List.chain'_append]
      refine ⟨h, List.chain'_singleton _, fun x hx y hy => ?_⟩
      rw [hlast] at hx
      simp only [Option.mem_def, Option.some_inj] at hx
      simp only [List.head?_cons, Option.mem_def, Option.some_inj] at hy
      rw [← hx, ← hy]
      exact htop
    
/-- Consolidation never leaves two adjacent entries on the same topic. -/
theorem consolidate_chain_go (pairs : List (String × Int))
    (acc : List (String × List Int))
    (h : List.Chain' (fun a b => a.1 ≠ b.1) acc) :
    List.Chain' (fun a b => a.1 ≠ b.1) (pairs.foldl consolidateStep acc) := by
  induction pairs generalizing acc with
  | nil => exact h
  | cons tp rest ih =>
    rw [List.foldl_cons]
    exact ih _ (consolidateStep_chain acc tp h)

/-- C8: for every caller topic list and every shuffle outcome (any
permutation of the flattened pairs), the outgoing consolidated `topics`
field flattens back to the same multiset of `(topic, partition)` pairs as
the input, and no two adjacent consolidated entries share a topic. -/
theorem claim_C8_fetch_shuffle (topics : List (String × List Int))
    (shuffled : List (String × Int))
    (hperm : shuffled.Perm (flattenTopicPartitions topics)) :
    (flattenTopicPartitions (consolidateTopicPartitions shuffled)).Perm
      (flattenTopicPartitions topics) ∧
    List.Chain' (fun a b => a.1 ≠ b.1) (consolidateTopicPartitions shuffled) := by
  constructor
  · rw [flatten_consolidate]
    exact hperm
  · exact consolidate_chain_go shuffled [] (List.chain'_nil)

/-- Witness for C8 at spec scenario S2 with a reversing shuffle: topic "t"
with partitions 0 and 1 keeps both pairs and collapses into entries with
pairwise distinct topics. -/
theorem claim_C8_fetch_shuffle_witness :
    (flattenTopicPartitions (consolidateTopicPartitions [("t", 1), ("t", 0)])).Perm
      (flattenTopicPartitions [("t", [0, 1])]) ∧
    List.Chain' (fun a b => a.1 ≠ b.1) (consolidateTopicPartitions [("t", 1), ("t", 0)]) :=
  claim_C8_fetch_shuffle [("t", [0, 1])] [("t", 1), ("t", 0)] (by decide)

/-- A partition record of a ListOffsets response: the fixed per-partition
fields plus the v0 `offsets` array (absent from v1+) and the v1+ scalar
`offset` (absent from v0).  Absent JS keys and keys set to `undefined` are
both `none`. -/
structure PartitionRecord where
  partition : Int
  errorCode : Int
  timestamp : Int
  offsets : Option (List Int)
  offset : Option Int
deriving DecidableEq, Repr

/-- One topic entry of a ListOffsets response. -/
structure ListOffsetsTopicResponse where
  topic : String
  partitions : List PartitionRecord
deriving DecidableEq, Repr

/-- A decoded ListOffsets response. -/
structure ListOffsetsResponse where
  throttleTime : Int
  responses : List ListOffsetsTopicResponse
deriving DecidableEq, Repr

/-- The per-partition normalisation of `Broker.listOffsets` (lines 427-429):
`({ offsets, ...partitionData }) => offsets ? { ...partitionData, offset:
offsets.pop() } : partitionData`.  A present `offsets` array - empty
arrays included, since `[]` is truthy in JavaScript - is removed and
replaced by `offset` holding `offsets.pop()`, the last element, which is
`undefined` for an empty array; a record without `offsets` passes through
untouched. -/
def normalizePartition (p : PartitionRecord) : PartitionRecord :=
  match p.offsets with
  | some l => { p with offsets := none, offset := l.getLast? }
  | none => p

/-- Method `Broker.listOffsets` post-processing (lines 426-431): rewrite each
response's partition list through `normalizePartition`. -/
def listOffsetsNormalize (result : ListOffsetsResponse) : ListOffsetsResponse :=
  { result with
    responses := result.responses.map
      (fun r => { r with partitions := r.partitions.map normalizePartition }) }

/-- A partition record carrying an empty v0 `offsets` array. -/
def emptyOffsetsRecord : PartitionRecord :=
  { partition := 0, errorCode := 0, timestamp := -1, offsets := some [], offset := none }

/-- Counterexample to C9: a record whose `offsets` array is empty (`[]` is
truthy in JavaScript) still has `offsets` stripped, but its `offset` field
becomes `undefined` rather than "the last element of that array" - the
empty array has no last element. -/
theorem claim_C9_counterexample :
    emptyOffsetsRecord.offsets = some [] ∧
    (normalizePartition emptyOffsetsRecord).offsets = none ∧
    (normalizePartition emptyOffsetsRecord).offset = none ∧
    ([] : List Int).getLast? = none :=
  ⟨rfl, rfl, rfl, rfl⟩

/-- C9 as amended: a partition record with a non-empty `offsets` array is
replaced by the same record without `offsets` and with `offset` equal to
its last element; an empty `offsets` array likewise disappears but leaves
`offset` undefined; records without `offsets` are unchanged - and
`listOffsets` applies this to every partition record of every response. -/
theorem claim_C9_listOffsets (p : PartitionRecord) (result : ListOffsetsResponse) :
    (∀ l x, p.offsets = some l → l.getLast? = some x →
      normalizePartition p = { p with offsets := none, offset := some x }) ∧
    (p.offsets = some [] →
      normalizePartition p = { p with offsets := none, offset := none }) ∧
    (p.offsets = none → normalizePartition p = p) ∧
    ((listOffsetsNormalize result).throttleTime = result.throttleTime ∧
      (listOffsetsNormalize result).responses.map (·.topic) =
        result.responses.map (·.topic) ∧
      (listOffsetsNormalize result).responses.map (·.partitions) =
        result.responses.map (fun r => r.partitions.map normalizePartition)) := by
  refine ⟨fun l x hl hx => ?_, fun hl => ?_, fun hl => ?_, rfl, ?_, ?_⟩
  · rw [normalizePartition, hl]
    simp [hx]
  · rw [normalizePartition, hl]
    simp
  · rw [normalizePartition, hl]
  · rw [listOffsetsNormalize]
    simp
  · rw [listOffsetsNormalize]
    simp

/-- A partition record carrying the v0 `offsets` array `[5, 7, 9]`. -/
def sampleOffsetsRecord : PartitionRecord :=
  { partition := 0, errorCode := 0, timestamp := -1, offsets := some [5, 7, 9],
    offset := none }

/-- Witness for the amended C9: `offsets: [5, 7, 9]` becomes
`offset = 9` with the array removed. -/
theorem claim_C9_listOffsets_witness :
    normalizePartition sampleOffsetsRecord =
      { sampleOffsetsRecord with offsets := none, offset := some 9 } :=
  (claim_C9_listOffsets sampleOffsetsRecord
      { throttleTime := 0, responses := [] }).1 [5, 7, 9] 9 rfl rfl

/-- The outcomes of the external collaborators consumed by one `connect()`
call: the lock acquisition, the monotonic clock read used by the
`isConnected()` check (`process.hrtime(authenticatedAt)`), the
connection's `connect()`, the `apiVersions()` negotiation (only consulted
when `versions` is still NIL), the probing of the lookup table for
`SaslAuthenticate` support, the SASL authenticator (returning the
advertised session lifetime), and the `process.hrtime()` timestamp taken
after authentication. -/
structure ConnectEnv where
  lockAcquire : Except KError Unit
  clock : Nat × Nat
  connectResult : Except KError Unit
  apiVersionsOutcome : Except KError (List ApiVersionEntry)
  saslLookupSucceeds : Bool
  authenticateResult : Except KError Int
  hrtimeNow : Nat × Nat

/-- The `versions` stage of `connect()` (lines 101-103): when `versions`
is already populated it is reused; otherwise the outcome of
`this.apiVersions()` is stored.  A negotiation failure whose probe send
died with the connection-closed error has already torn the transport down
through the send path's `disconnect()` cascade; any other failure leaves
the transport up. -/
def versionsStage (st : BrokerState) (env : ConnectEnv) :
    Except KError (List ApiVersionEntry) × BrokerState :=
  match st.versions with
  | some entries => (.ok entries, st)
  | none =>
    match env.apiVersionsOutcome with
    | .ok entries => (.ok entries, { st with versions := some entries })
    | .error e =>
      if e.name = "KafkaJSConnectionClosedError" then
        (.error e, { st with conn.connected := false, authenticatedAt := none })
      else (.error e, st)

/-- The `supportAuthenticationProtocol` stage of `connect()`
(lines 105-117): when still NIL, resolve it by probing the lookup table
for `SaslAuthenticate`. -/
def supportStage (st : BrokerState) (env : ConnectEnv) : BrokerState :=
  match st.supportAuthenticationProtocol with
  | none => { st with supportAuthenticationProtocol := some env.saslLookupSucceeds }
  | some _ => st

/-- The tail of `connect()` past the transport establishment
(lines 101-124), entered with `authenticatedAt` cleared and the transport
up: negotiate `versions` when NIL, rebuild `lookupRequest` from the
versions table, resolve `supportAuthenticationProtocol` when NIL, and run
the SASL authenticator when configured. -/
def connectMain (st : BrokerState) (env : ConnectEnv) :
    Except KError Unit × BrokerState :=
  match versionsStage st env with
  | (.error e, st3) => (.error e, st3)
  | (.ok entries, st3) =>
    let st4 := { st3 with lookupRequest := .fromVersions entries }
    let st5 := supportStage st4 env
    if st5.authenticatedAt.isNone && st5.conn.sasl then
      match env.authenticateResult with
      | .error e => (.error e, st5)
      | .ok lifetime =>
        (.ok (), { st5 with authenticatedAt := some env.hrtimeNow, sessionLifetime := lifetime })
    else (.ok (), st5)

/-- Method `Broker.connect` (lines 93-129): acquire the lock; return early when
`isConnected()`; clear `authenticatedAt`; establish the transport (on
success the Connection contract raises its `connected` flag); then run the
negotiation/lookup/SASL tail.  The lock is released on every path (the
release has no state effect here). -/
def BrokerState.connect (st : BrokerState) (env : ConnectEnv) :
    Except KError Unit × BrokerState :=
  match env.lockAcquire with
  | .error e => (.error e, st)
  | .ok _ =>
    if st.isConnected env.clock then (.ok (), st)
    else
      match env.connectResult with
      | .error e => (.error e, { st with authenticatedAt := none })
      | .ok _ => connectMain { st with authenticatedAt := none, conn.connected := true } env

/-- Helper fact: `supportStage` never touches `lookupRequest`. -/
theorem supportStage_lookupRequest (st : BrokerState) (env : ConnectEnv) :
    (supportStage st env).lookupRequest = st.lookupRequest := by
  rw [supportStage]
  cases st.supportAuthenticationProtocol <;> rfl

/-- Once `versionsStage` succeeds, every branch of the connect tail leaves
`lookupRequest` holding the freshly built lookup. -/
theorem connectMain_lookupRequest (st : BrokerState) (env : ConnectEnv) :
    (connectMain st env).1 = .ok () →
    ((connectMain st env).2).lookupRequest.isSentinel = false := by
  rw [connectMain]
  cases hvs : versionsStage st env with
  | mk res st3 =>
    cases res with
    | error e =>
      intro hok
      simp at hok
    | ok entries =>
      dsimp only
      intro _
      split
      · split
        · rw [supportStage_lookupRequest]
          rfl
        · rw [supportStage_lookupRequest]
          rfl
      · rw [supportStage_lookupRequest]
        rfl

/-- A freshly constructed broker on a sasl-free, not yet connected
transport. -/
def notConnectedBroker : BrokerState := mkBroker plainConn none none 1000 10000 true none

/-- A `connect()` run whose version negotiation fails after the transport
came up: every probe was answered `UNSUPPORTED_VERSION`, so
`apiVersions()` threw the non-retriable "API Versions not supported"
(name `KafkaJSNonRetriableError`, not connection-closed). -/
def failedNegotiationEnv : ConnectEnv :=
  { lockAcquire := .ok (), clock := (0, 0), connectResult := .ok (),
    apiVersionsOutcome := .error (kafkaJSNonRetriableError "API Versions not supported"),
    saslLookupSucceeds := false, authenticateResult := .ok 0, hrtimeNow := (0, 0) }

/-- A `connect()` run whose every collaborator succeeds, negotiating one
table entry. -/
def successEnv : ConnectEnv :=
  { lockAcquire := .ok (), clock := (0, 0), connectResult := .ok (),
    apiVersionsOutcome := .ok [{ apiKey := 18, minVersion := 0, maxVersion := 2 }],
    saslLookupSucceeds := true, authenticateResult := .ok 0, hrtimeNow := (0, 0) }

/-- Counterexample to C6: on a fresh sasl-free broker, a first `connect()`
that fails during version negotiation (after the transport came up) leaves
the transport connected and `lookupRequest` the sentinel; a second
`connect()` then observes `isConnected()` true, returns successfully at
the early exit, and `lookupRequest` is still the not-initialized
sentinel. -/
theorem claim_C6_counterexample :
    (notConnectedBroker.connect failedNegotiationEnv).1 =
      .error (kafkaJSNonRetriableError "API Versions not supported") ∧
    ((notConnectedBroker.connect failedNegotiationEnv).2.connect
        failedNegotiationEnv).1 = .ok () ∧
    ((notConnectedBroker.connect failedNegotiationEnv).2.connect
        failedNegotiationEnv).2.lookupRequest = .sentinel :=
  ⟨rfl, rfl, rfl⟩

/-- C6 as amended: the constructor installs the sentinel; the sentinel
throws "Broker not connected" on every invocation; and every `connect()`
that returns successfully after observing `isConnected()` false on entry
(i.e. that did not take the early already-connected return) leaves
`lookupRequest` holding a negotiated lookup, not the sentinel. -/
theorem claim_C6_lookupRequest (connection : ConnState) (nodeId : Option Int)
    (versions : Option (List ApiVersionEntry))
    (authenticationTimeout reauthenticationThreshold : Int)
    (allowAutoTopicCreation : Bool) (supportAuthenticationProtocol : Option Bool) :
    (mkBroker connection nodeId versions authenticationTimeout reauthenticationThreshold
        allowAutoTopicCreation supportAuthenticationProtocol).lookupRequest =
      .sentinel ∧
    (∀ k, invokeLookup .sentinel k = .error (jsError "Broker not connected")) ∧
    (∀ (st : BrokerState) (env : ConnectEnv),
      st.isConnected env.clock = false → (st.connect env).1 = .ok () →
      ((st.connect env).2).lookupRequest.isSentinel = false) := by
  refine ⟨rfl, fun k => rfl, fun st env hnc => ?_⟩
  rw [BrokerState.connect]
  cases hla : env.lockAcquire with
  | error e =>
    intro hok
    simp at hok
  | ok u =>
    dsimp only
    rw [hnc]
    simp only [Bool.false_eq_true, if_false]
    cases hcr : env.connectResult with
    | error e =>
      intro hok
      simp at hok
    | ok u2 =>
      dsimp only
      exact connectMain_lookupRequest _ env

/-- Witness for the amended C6: a fully successful first `connect()` on a
fresh broker leaves a non-sentinel `lookupRequest`. -/
theorem claim_C6_lookupRequest_witness :
    ((notConnectedBroker.connect successEnv).2).lookupRequest.isSentinel = false :=
  (claim_C6_lookupRequest plainConn none none 1000 10000 true none).2.2
    notConnectedBroker successEnv rfl rfl
